import Mathlib

/-!
Shallow embedding of the prayer-times backend (`backend/server.py`):
the qibla bearing calculation, the user-settings upsert service, the
settings lookup endpoint, the query-parameter layer of the HTTP routes,
and the static calculation-method table.

Modelling conventions:
* Python floats are modelled as real numbers; `math.sin`, `math.cos`,
  `math.tan`, `math.atan2`, `math.radians`, `math.degrees` become the
  corresponding real functions, with `atan2` spelled out by the usual
  case split (reals have no signed zero, so `atan2 0 0 = 0`, matching
  Python).  Python `round(x, 2)` is modelled as rounding `x * 100` to
  the nearest integer and dividing by 100.
* The MongoDB collection `user_settings` is a list of records:
  `find_one` returns the first record whose `device_id` matches,
  `update_one` rewrites the first matching record in place, and
  `insert_one` appends at the end.
* `uuid.uuid4()` and `datetime.utcnow()` are nondeterministic inputs of
  the upsert handler; they are passed as explicit parameters (`fid`,
  `now`), with timestamps as abstract ticks.
-/

namespace Ezan

/-- Kaaba latitude, from `KAABA_LAT = 21.4225` in the source. -/
noncomputable def KAABA_LAT : ℝ := 21.4225

/-- Kaaba longitude, from `KAABA_LNG = 39.8262` in the source. -/
noncomputable def KAABA_LNG : ℝ := 39.8262

/-- `math.radians`. -/
noncomputable def radians (x : ℝ) : ℝ := x * Real.pi / 180

/-- `math.degrees`. -/
noncomputable def degrees (x : ℝ) : ℝ := x * 180 / Real.pi

/-- `math.atan2 v u` (the first argument is the ordinate), by the usual
case split on the quadrant. -/
noncomputable def atan2 (v u : ℝ) : ℝ :=
  if 0 < u then Real.arctan (v / u)
  else if u < 0 then
    (if 0 ≤ v then Real.arctan (v / u) + Real.pi
     else Real.arctan (v / u) - Real.pi)
  else if 0 < v then Real.pi / 2
  else if v < 0 then -(Real.pi / 2)
  else 0

/-- Python `round(x, 2)`: round to two decimal places. -/
noncomputable def round2 (x : ℝ) : ℝ := ((round (x * 100) : ℤ) : ℝ) / 100

/-- `calculate_qibla_direction(lat, lng)` from `backend/server.py`. -/
noncomputable def calculate_qibla_direction (lat lng : ℝ) : ℝ :=
  let lat_rad := radians lat
  let lng_rad := radians lng
  let kaaba_lat_rad := radians KAABA_LAT
  let kaaba_lng_rad := radians KAABA_LNG
  let delta_lng := kaaba_lng_rad - lng_rad
  let x := Real.sin delta_lng
  let y := Real.cos lat_rad * Real.tan kaaba_lat_rad -
    Real.sin lat_rad * Real.cos delta_lng
  let qibla := degrees (atan2 x y)
  let qibla2 := if qibla < 0 then qibla + 360 else qibla
  round2 qibla2

/-- Spec-side bearing formula, written from the words of spec section
4.1 step by step (this definition serves only the refinement claim C2;
every other definition is translated from the source). -/
noncomputable def computeBearing (lat lng : ℝ) : ℝ :=
  let originLatRad := lat * Real.pi / 180
  let originLngRad := lng * Real.pi / 180
  let referenceLatRad := (21.4225 : ℝ) * Real.pi / 180
  let referenceLngRad := (39.8262 : ℝ) * Real.pi / 180
  let deltaLng := referenceLngRad - originLngRad
  let x := Real.sin deltaLng
  let y := Real.cos originLatRad * Real.tan referenceLatRad -
    Real.sin originLatRad * Real.cos deltaLng
  let bearing := atan2 x y * 180 / Real.pi
  let normalized := if bearing < 0 then bearing + 360 else bearing
  ((round (normalized * 100) : ℤ) : ℝ) / 100

/-- The `UserSettings` pydantic model.  Stored floats are modelled as
rationals (they are only stored and compared, never computed with). -/
structure UserSettings where
  id : String
  device_id : String
  language : String
  theme : String
  notification_enabled : Bool
  notification_sound : String
  calculation_method : Int
  latitude : Option ℚ
  longitude : Option ℚ
  city : Option String
  country : Option String
  created_at : Nat
  updated_at : Nat
deriving DecidableEq

/-- The `UserSettingsUpdate` pydantic model: every field optional,
defaulting to `None`. -/
structure UserSettingsUpdate where
  language : Option String := none
  theme : Option String := none
  notification_enabled : Option Bool := none
  notification_sound : Option String := none
  calculation_method : Option Int := none
  latitude : Option ℚ := none
  longitude : Option ℚ := none
  city : Option String := none
  country : Option String := none
deriving DecidableEq

/-- Merge of one optional stored field with one optional patch field:
a non-null patch value overwrites, a null patch value keeps the stored
value (this is the effect of building `update_data` from the non-`None`
patch entries only and applying `$set`). -/
def mergeOpt {α : Type} (patch stored : Option α) : Option α :=
  match patch with
  | some v => some v
  | none => stored

/-- The record produced by the found branch of the upsert: `$set` of
every non-`None` patch field plus `updated_at = datetime.utcnow()`,
applied to the stored record `s`. -/
def mergeSettings (s : UserSettings) (p : UserSettingsUpdate) (now : Nat) : UserSettings :=
  { id := s.id
    device_id := s.device_id
    language := p.language.getD s.language
    theme := p.theme.getD s.theme
    notification_enabled := p.notification_enabled.getD s.notification_enabled
    notification_sound := p.notification_sound.getD s.notification_sound
    calculation_method := p.calculation_method.getD s.calculation_method
    latitude := mergeOpt p.latitude s.latitude
    longitude := mergeOpt p.longitude s.longitude
    city := mergeOpt p.city s.city
    country := mergeOpt p.country s.country
    created_at := s.created_at
    updated_at := now }

/-- The record produced by the not-found branch of the upsert:
`UserSettings(device_id=device_id, **non_null_patch_fields)`, with the
pydantic defaults for everything absent; `fid` stands for the value of
`uuid.uuid4()` and `now` for `datetime.utcnow()`. -/
def applyDefaults (d : String) (fid : String) (now : Nat) (p : UserSettingsUpdate) : UserSettings :=
  { id := fid
    device_id := d
    language := p.language.getD "tr"
    theme := p.theme.getD "dark"
    notification_enabled := p.notification_enabled.getD true
    notification_sound := p.notification_sound.getD "default"
    calculation_method := p.calculation_method.getD 13
    latitude := p.latitude
    longitude := p.longitude
    city := p.city
    country := p.country
    created_at := now
    updated_at := now }

/-- The `{"device_id": device_id}` Mongo filter. -/
def devMatches (d : String) (r : UserSettings) : Bool := r.device_id == d

/-- `db.user_settings.find_one({"device_id": d})`: first matching
record, if any. -/
def findOne (store : List UserSettings) (d : String) : Option UserSettings :=
  match store with
  | [] => none
  | r :: rest => if devMatches d r then some r else findOne rest d

/-- `db.user_settings.update_one({"device_id": d}, ...)`: rewrite the
first matching record with `f`. -/
def updateFirst (f : UserSettings → UserSettings) (d : String) : List UserSettings → List UserSettings
  | [] => []
  | r :: rest =>
    if devMatches d r then f r :: rest else r :: updateFirst f d rest

/-- Number of records in the collection for a given `device_id`. -/
def countFor (store : List UserSettings) (d : String) : Nat :=
  match store with
  | [] => 0
  | r :: rest => (if devMatches d r then 1 else 0) + countFor rest d

/-- `POST /settings` handler `create_or_update_settings`: look up by
`device_id`; if found, `$set` the non-null patch fields plus
`updated_at` and return the re-read record (which the lemma
`findOne_updateMerge` identifies with the merged record); if not found,
insert a fresh record built from the defaults and the patch and return
it.  Returns (new collection state, returned record). -/
def upsert (store : List UserSettings) (d : String) (p : UserSettingsUpdate)
    (fid : String) (now : Nat) : List UserSettings × UserSettings :=
  match findOne store d with
  | some s =>
    (updateFirst (fun r => mergeSettings r p now) d store, mergeSettings s p now)
  | none =>
    (store ++ [applyDefaults d fid now p], applyDefaults d fid now p)

/-- `GET /settings/{device_id}` handler: always `success = true`, with
the record or `null` as data. -/
def get_settings (store : List UserSettings) (d : String) : Bool × Option UserSettings :=
  (true, findOne store d)

/-- One upsert call described by (device_id, patch, fresh id, time). -/
def upsertStep (store : List UserSettings)
    (op : String × UserSettingsUpdate × String × Nat) : List UserSettings :=
  (upsert store op.1 op.2.1 op.2.2.1 op.2.2.2).1

/-- The collection state after a sequence of upsert calls starting from
an empty collection. -/
def runUpserts (ops : List (String × UserSettingsUpdate × String × Nat)) : List UserSettings :=
  ops.foldl upsertStep []

/-- Outcome of `GET /qibla`: FastAPI rejects a request with a missing
required `Query(...)` parameter before the handler runs (modelled as
`validationFailure`); otherwise the handler runs, performing no I/O. -/
inductive QiblaResult where
  | validationFailure : QiblaResult
  | ok : ℝ → ℝ → ℝ → QiblaResult
deriving Inhabited

/-- `GET /qibla` route: both coordinates are required; the handler body
declares no range constraint on them and immediately returns the
computed direction with the echoed coordinates. -/
noncomputable def get_qibla_route (latitude longitude : Option ℝ) : QiblaResult :=
  match latitude, longitude with
  | some lat, some lng => QiblaResult.ok (calculate_qibla_direction lat lng) lat lng
  | _, _ => QiblaResult.validationFailure

/-- Outcome of `GET /prayer-times`: either the framework-level
validation failure for a missing required parameter, or the upstream
Aladhan request the handler issues first thing (its date parameter,
coordinates and method). -/
inductive DailyResult where
  | validationFailure : DailyResult
  | upstreamFetch : Option String → ℝ → ℝ → Int → DailyResult

/-- `GET /prayer-times` route: latitude and longitude required, date
optional, method defaulting to 13; no range checks, the handler goes
straight to `fetch_prayer_times_aladhan`. -/
noncomputable def get_prayer_times_route (latitude longitude : Option ℝ)
    (dateParam : Option String) (methodParam : Option Int) : DailyResult :=
  match latitude, longitude with
  | some lat, some lng => DailyResult.upstreamFetch dateParam lat lng (methodParam.getD 13)
  | _, _ => DailyResult.validationFailure

/-- Outcome of `GET /prayer-times/monthly`: either the framework-level
validation failure, or the upstream calendar request (year, month,
coordinates, method). -/
inductive MonthlyResult where
  | validationFailure : MonthlyResult
  | upstreamFetch : Int → Int → ℝ → ℝ → Int → MonthlyResult

/-- `GET /prayer-times/monthly` route: latitude, longitude, month and
year required, method defaulting to 13; no range checks, the handler
goes straight to the upstream calendar call. -/
noncomputable def get_monthly_route (latitude longitude : Option ℝ)
    (monthParam yearParam : Option Int) (methodParam : Option Int) : MonthlyResult :=
  match latitude, longitude, monthParam, yearParam with
  | some lat, some lng, some m, some y =>
    MonthlyResult.upstreamFetch y m lat lng (methodParam.getD 13)
  | _, _, _, _ => MonthlyResult.validationFailure

/-- One entry of the static calculation-method table. -/
structure CalculationMethod where
  id : Int
  name : String
  name_tr : String
deriving DecidableEq

/-- The literal list returned by `GET /calculation-methods`. -/
def calculation_methods : List CalculationMethod :=
  [ ⟨0, "Shia Ithna-Ashari", "Şii İsna Aşeri"⟩,
    ⟨1, "University of Islamic Sciences, Karachi", "Karachi Üniversitesi"⟩,
    ⟨2, "Islamic Society of North America", "ISNA"⟩,
    ⟨3, "Muslim World League", "Müslüman Dünya Birliği"⟩,
    ⟨4, "Umm Al-Qura University, Makkah", "Ümmül Kura"⟩,
    ⟨5, "Egyptian General Authority of Survey", "Mısır"⟩,
    ⟨7, "Institute of Geophysics, University of Tehran", "Tahran"⟩,
    ⟨8, "Gulf Region", "Körfez Bölgesi"⟩,
    ⟨9, "Kuwait", "Kuveyt"⟩,
    ⟨10, "Qatar", "Katar"⟩,
    ⟨11, "Majlis Ugama Islam Singapura", "Singapur"⟩,
    ⟨12, "Union Organization Islamic de France", "Fransa"⟩,
    ⟨13, "Diyanet İşleri Başkanlığı, Turkey", "Diyanet İşleri Başkanlığı"⟩,
    ⟨14, "Spiritual Administration of Muslims of Russia", "Rusya"⟩ ]

/-- A concrete stored record used by the witnesses. -/
def demoRec : UserSettings :=
  { id := "i1"
    device_id := "dev1"
    language := "tr"
    theme := "dark"
    notification_enabled := true
    notification_sound := "default"
    calculation_method := 13
    latitude := none
    longitude := none
    city := none
    country := none
    created_at := 1
    updated_at := 1 }

/-- A concrete one-record collection used by the witnesses. -/
def demoStore : List UserSettings := [demoRec]

/-- A concrete patch used by the witnesses. -/
def demoPatch : UserSettingsUpdate :=
  { language := some "en", calculation_method := some 3, city := some "Ankara" }

/-! ### Helper lemmas about the settings collection -/

theorem devMatches_mergeSettings (d : String) (r : UserSettings) (p : UserSettingsUpdate)
    (now : Nat) : devMatches d (mergeSettings r p now) = devMatches d r := rfl

theorem upsert_snd_of_found {store : List UserSettings} {d : String} {p : UserSettingsUpdate}
    {fid : String} {now : Nat} {s : UserSettings} (h : findOne store d = some s) :
    (upsert store d p fid now).2 = mergeSettings s p now := by
  unfold upsert; rw [h]

theorem upsert_fst_of_found {store : List UserSettings} {d : String} {p : UserSettingsUpdate}
    {fid : String} {now : Nat} {s : UserSettings} (h : findOne store d = some s) :
    (upsert store d p fid now).1 = updateFirst (fun r => mergeSettings r p now) d store := by
  unfold upsert; rw [h]

theorem upsert_snd_of_none {store : List UserSettings} {d : String} {p : UserSettingsUpdate}
    {fid : String} {now : Nat} (h : findOne store d = none) :
    (upsert store d p fid now).2 = applyDefaults d fid now p := by
  unfold upsert; rw [h]

theorem upsert_fst_of_none {store : List UserSettings} {d : String} {p : UserSettingsUpdate}
    {fid : String} {now : Nat} (h : findOne store d = none) :
    (upsert store d p fid now).1 = store ++ [applyDefaults d fid now p] := by
  unfold upsert; rw [h]

theorem findOne_updateMerge {d : String} {p : UserSettingsUpdate} {now : Nat} :
    ∀ {store : List UserSettings} {s : UserSettings}, findOne store d = some s →
    findOne (updateFirst (fun r => mergeSettings r p now) d store) d =
      some (mergeSettings s p now) := by
  intro store
  induction store with
  | nil => intro s h; simp [findOne] at h
  | cons r rest ih =>
    intro s h
    by_cases hb : devMatches d r
    · simp only [findOne, if_pos hb, Option.some.injEq] at h
      subst h
      simp only [updateFirst, if_pos hb, findOne, devMatches_mergeSettings, if_pos hb]
    · simp only [findOne, if_neg hb] at h
      simp only [updateFirst, if_neg hb, findOne, if_neg hb]
      exact ih h

theorem countFor_updateFirst {d : String} {p : UserSettingsUpdate} {now : Nat} :
    ∀ store : List UserSettings,
    countFor (updateFirst (fun r => mergeSettings r p now) d store) d = countFor store d := by
  intro store
  induction store with
  | nil => rfl
  | cons r rest ih =>
    by_cases hb : devMatches d r
    · simp only [updateFirst, if_pos hb, countFor, devMatches_mergeSettings]
    · simp only [updateFirst, if_neg hb, countFor, ih]

theorem countFor_append_one (store : List UserSettings) (d : String) (r : UserSettings) :
    countFor (store ++ [r]) d = countFor store d + (if devMatches d r then 1 else 0) := by
  induction store with
  | nil => simp [countFor]
  | cons a rest ih =>
    simp only [List.cons_append, countFor, List.append_eq, ih, Nat.add_assoc]

theorem countFor_eq_zero_of_findOne_none {d : String} :
    ∀ {store : List UserSettings}, findOne store d = none → countFor store d = 0 := by
  intro store
  induction store with
  | nil => intro _; rfl
  | cons r rest ih =>
    intro h
    by_cases hb : devMatches d r
    · simp [findOne, if_pos hb] at h
    · simp only [findOne, if_neg hb] at h
      simp only [countFor, if_neg hb, ih h]

theorem one_le_countFor_of_findOne_some {d : String} :
    ∀ {store : List UserSettings} {s : UserSettings}, findOne store d = some s →
    1 ≤ countFor store d := by
  intro store
  induction store with
  | nil => intro s h; simp [findOne] at h
  | cons r rest ih =>
    intro s h
    by_cases hb : devMatches d r
    · simp only [countFor, if_pos hb]; omega
    · simp only [findOne, if_neg hb] at h
      simp only [countFor, if_neg hb]
      have := ih h
      omega

theorem findOne_updateFirst_none {d d2 : String} {p : UserSettingsUpdate} {now : Nat} :
    ∀ {store : List UserSettings}, findOne store d = none →
    findOne (updateFirst (fun r => mergeSettings r p now) d2 store) d = none := by
  intro store
  induction store with
  | nil => intro _; rfl
  | cons r rest ih =>
    intro h
    by_cases hb : devMatches d r
    · simp [findOne, if_pos hb] at h
    · simp only [findOne, if_neg hb] at h
      by_cases hb2 : devMatches d2 r
      · simp only [updateFirst, if_pos hb2, findOne, devMatches_mergeSettings, if_neg hb]
        exact h
      · simp only [updateFirst, if_neg hb2, findOne, if_neg hb]
        exact ih h

theorem findOne_append_none {d : String} {r : UserSettings} (hr : devMatches d r = false) :
    ∀ {store : List UserSettings}, findOne store d = none →
    findOne (store ++ [r]) d = none := by
  intro store
  induction store with
  | nil => intro _; simp [findOne, hr]
  | cons a rest ih =>
    intro h
    by_cases hb : devMatches d a
    · simp [findOne, if_pos hb] at h
    · simp only [findOne, if_neg hb] at h
      simp only [List.cons_append, findOne, if_neg hb]
      exact ih h

theorem findOne_upsert_preserve {store : List UserSettings} {d d2 : String}
    {p : UserSettingsUpdate} {fid : String} {now : Nat}
    (hne : d2 ≠ d) (h : findOne store d = none) :
    findOne (upsert store d2 p fid now).1 d = none := by
  cases hfo : findOne store d2 with
  | some s =>
    rw [upsert_fst_of_found hfo]
    exact findOne_updateFirst_none h
  | none =>
    rw [upsert_fst_of_none hfo]
    refine findOne_append_none ?_ h
    simp [devMatches, applyDefaults, hne]

theorem getD_getD {α : Type} (o : Option α) (x : α) : o.getD (o.getD x) = o.getD x := by
  cases o <;> rfl

theorem mergeOpt_mergeOpt {α : Type} (o a : Option α) :
    mergeOpt o (mergeOpt o a) = mergeOpt o a := by
  cases o <;> rfl

/-! ### Helper lemmas for the bearing calculation -/

theorem arctan_le_self_of_nonneg {x : ℝ} (hx : 0 ≤ x) : Real.arctan x ≤ x := by
  rcases eq_or_lt_of_le hx with h | h
  · rw [← h, Real.arctan_zero]
  · have h1 : 0 < Real.arctan x := by
      have h2 := Real.arctan_strictMono h
      rwa [Real.arctan_zero] at h2
    have h3 : Real.arctan x < Real.tan (Real.arctan x) :=
      Real.lt_tan h1 (Real.arctan_lt_pi_div_two x)
    rw [Real.tan_arctan] at h3
    exact le_of_lt h3

theorem le_arctan_self_of_nonpos {x : ℝ} (hx : x ≤ 0) : x ≤ Real.arctan x := by
  have h := arctan_le_self_of_nonneg (neg_nonneg.mpr hx)
  rw [Real.arctan_neg] at h
  linarith

theorem atan2_range (v u : ℝ) : -Real.pi < atan2 v u ∧ atan2 v u ≤ Real.pi := by
  have hpi := Real.pi_pos
  have h1 := Real.arctan_lt_pi_div_two (v / u)
  have h2 := Real.neg_pi_div_two_lt_arctan (v / u)
  unfold atan2
  split_ifs with hu1 hu2 hv1 hv2 hv3
  · constructor <;> linarith
  · have ht : Real.arctan (v / u) ≤ 0 := by
      have ha : v / u ≤ 0 := div_nonpos_iff.mpr (Or.inl ⟨hv1, le_of_lt hu2⟩)
      have hmono := Real.arctan_strictMono.monotone ha
      rwa [Real.arctan_zero] at hmono
    constructor <;> linarith
  · have ht : 0 < Real.arctan (v / u) := by
      have ha : 0 < v / u := div_pos_of_neg_of_neg (lt_of_not_le hv1) hu2
      have hmono := Real.arctan_strictMono ha
      rwa [Real.arctan_zero] at hmono
    constructor <;> linarith
  · constructor <;> linarith
  · constructor <;> linarith
  · constructor <;> linarith

theorem degrees_bounds {a : ℝ} (h1 : -Real.pi < a) (h2 : a ≤ Real.pi) :
    -180 < degrees a ∧ degrees a ≤ 180 := by
  have hpi := Real.pi_pos
  constructor
  · unfold degrees
    rw [lt_div_iff₀ hpi]
    linarith
  · unfold degrees
    rw [div_le_iff₀ hpi]
    linarith

theorem round2_bounds {x : ℝ} (h0 : 0 ≤ x) (h1 : x < 360) :
    0 ≤ round2 x ∧ round2 x ≤ 360 := by
  have hl : (0 : ℤ) ≤ round (x * 100) := by
    rw [round_eq]
    refine Int.le_floor.mpr ?_
    push_cast
    linarith
  have hu : round (x * 100) ≤ 36000 := by
    rw [round_eq]
    have hlt : (⌊x * 100 + 1 / 2⌋ : ℤ) < 36001 := by
      refine Int.floor_lt.mpr ?_
      push_cast
      linarith
    omega
  constructor
  · unfold round2
    have hc : (0 : ℝ) ≤ ((round (x * 100) : ℤ) : ℝ) := by exact_mod_cast hl
    positivity
  · unfold round2
    rw [div_le_iff₀ (by norm_num : (0 : ℝ) < 100)]
    have hc : ((round (x * 100) : ℤ) : ℝ) ≤ 36000 := by exact_mod_cast hu
    linarith

theorem round2_norm_bounds {q : ℝ} (h1 : -180 < q) (h2 : q ≤ 180) :
    0 ≤ round2 (if q < 0 then q + 360 else q) ∧
    round2 (if q < 0 then q + 360 else q) ≤ 360 := by
  by_cases hq : q < 0
  · rw [if_pos hq]
    exact round2_bounds (by linarith) (by linarith)
  · rw [if_neg hq]
    exact round2_bounds (by linarith) (by linarith)

/-! ### Claim theorems for the settings service, the routes and the
static tables -/

/-- C1 (amended): for every latitude in [-90, 90] and longitude in
[-180, 180] the bearing calculation is total (the embedding is a total
function: the formula divides by nothing and `atan2` is defined
everywhere) and returns a value in the closed range [0, 360]; the value
before rounding lies in [0, 360), but rounding to 2 decimal places can
produce exactly 360 (see `qibla_direction_reaches_360`), so the claimed
half-open range [0, 360) does not hold. -/
theorem qibla_direction_in_closed_range (lat lng : ℝ)
    (h1 : -90 ≤ lat) (h2 : lat ≤ 90) (h3 : -180 ≤ lng) (h4 : lng ≤ 180) :
    0 ≤ calculate_qibla_direction lat lng ∧ calculate_qibla_direction lat lng ≤ 360 := by
  simp only [calculate_qibla_direction]
  refine round2_norm_bounds ?_ ?_
  · exact (degrees_bounds (atan2_range _ _).1 (atan2_range _ _).2).1
  · exact (degrees_bounds (atan2_range _ _).1 (atan2_range _ _).2).2

/-- Witness for C1 at Istanbul's coordinates. -/
theorem qibla_direction_in_closed_range_witness :
    ((-90 : ℝ) ≤ 41.0082 ∧ (41.0082 : ℝ) ≤ 90 ∧
      (-180 : ℝ) ≤ 28.9784 ∧ (28.9784 : ℝ) ≤ 180) ∧
    0 ≤ calculate_qibla_direction 41.0082 28.9784 ∧
      calculate_qibla_direction 41.0082 28.9784 ≤ 360 :=
  ⟨⟨by norm_num, by norm_num, by norm_num, by norm_num⟩,
   qibla_direction_in_closed_range 41.0082 28.9784 (by norm_num) (by norm_num)
     (by norm_num) (by norm_num)⟩

/-- C1 counterexample: at latitude 0, longitude 39.8272 — both inside
the claimed input ranges — the pre-rounding bearing is 359.99745...,
and rounding to 2 decimal places returns exactly 360, which is outside
the claimed half-open range [0, 360). -/
theorem qibla_direction_reaches_360 :
    (-90 : ℝ) ≤ 0 ∧ (0 : ℝ) ≤ 90 ∧ (-180 : ℝ) ≤ 39.8272 ∧ (39.8272 : ℝ) ≤ 180 ∧
    calculate_qibla_direction 0 39.8272 = 360 := by
  refine ⟨by norm_num, by norm_num, by norm_num, by norm_num, ?_⟩
  have hpi := Real.pi_pos
  have hpi3 : (3 : ℝ) < Real.pi := Real.pi_gt_three
  simp only [calculate_qibla_direction]
  have hdelta : radians KAABA_LNG - radians 39.8272 = -(Real.pi / 180000) := by
    simp only [radians, KAABA_LNG]
    ring
  rw [hdelta]
  have hlat0 : radians (0 : ℝ) = 0 := by simp [radians]
  rw [hlat0, Real.cos_zero, Real.sin_zero, one_mul, zero_mul, sub_zero, Real.sin_neg]
  have hk1 : 0 < radians KAABA_LAT := by
    simp only [radians, KAABA_LAT]
    positivity
  have hk2 : radians KAABA_LAT < Real.pi / 2 := by
    simp only [radians, KAABA_LAT]
    linarith
  have hk3 : (0.35 : ℝ) < radians KAABA_LAT := by
    simp only [radians, KAABA_LAT]
    linarith
  have hT : (0.35 : ℝ) < Real.tan (radians KAABA_LAT) :=
    lt_trans hk3 (Real.lt_tan hk1 hk2)
  have hT0 : (0 : ℝ) < Real.tan (radians KAABA_LAT) := by linarith
  have hs_pos : 0 < Real.sin (Real.pi / 180000) :=
    Real.sin_pos_of_pos_of_lt_pi (by positivity) (by linarith)
  have hs_lt : Real.sin (Real.pi / 180000) < Real.pi / 180000 :=
    Real.sin_lt (by positivity)
  have hA : atan2 (-Real.sin (Real.pi / 180000)) (Real.tan (radians KAABA_LAT)) =
      Real.arctan (-Real.sin (Real.pi / 180000) / Real.tan (radians KAABA_LAT)) := by
    unfold atan2
    rw [if_pos hT0]
  rw [hA]
  have hu_neg : -Real.sin (Real.pi / 180000) / Real.tan (radians KAABA_LAT) < 0 :=
    div_neg_of_neg_of_pos (by linarith) hT0
  have ha_neg :
      Real.arctan (-Real.sin (Real.pi / 180000) / Real.tan (radians KAABA_LAT)) < 0 := by
    have h := Real.arctan_strictMono hu_neg
    rwa [Real.arctan_zero] at h
  have hu_ge : -(Real.pi / 36000) ≤
      -Real.sin (Real.pi / 180000) / Real.tan (radians KAABA_LAT) := by
    rw [le_div_iff₀ hT0]
    have hpos : (0 : ℝ) < Real.pi / 36000 := by positivity
    have hprod := mul_lt_mul_of_pos_left hT hpos
    linarith
  have ha_ge : -(Real.pi / 36000) ≤
      Real.arctan (-Real.sin (Real.pi / 180000) / Real.tan (radians KAABA_LAT)) := by
    have h := le_arctan_self_of_nonpos (le_of_lt hu_neg)
    linarith
  have hq_neg : degrees (Real.arctan (-Real.sin (Real.pi / 180000) /
      Real.tan (radians KAABA_LAT))) < 0 := by
    unfold degrees
    exact div_neg_of_neg_of_pos (by linarith) hpi
  have hq_ge : -(0.005 : ℝ) ≤ degrees (Real.arctan (-Real.sin (Real.pi / 180000) /
      Real.tan (radians KAABA_LAT))) := by
    unfold degrees
    rw [le_div_iff₀ hpi]
    linarith
  rw [if_pos hq_neg]
  unfold round2
  have hround : round ((degrees (Real.arctan (-Real.sin (Real.pi / 180000) /
      Real.tan (radians KAABA_LAT))) + 360) * 100) = 36000 := by
    rw [round_eq]
    refine Int.floor_eq_iff.mpr ⟨?_, ?_⟩
    · push_cast
      linarith
    · push_cast
      linarith
  rw [hround]
  norm_num

/-- C3: at the reference point itself (latitude 21.4225, longitude
39.8262) the longitude delta is 0, both `atan2` arguments collapse to
0, `atan2 0 0 = 0`, and the returned bearing is exactly 0. -/
theorem qibla_direction_at_kaaba_is_zero :
    calculate_qibla_direction 21.4225 39.8262 = 0 := by
  have hpi := Real.pi_pos
  simp only [calculate_qibla_direction]
  have hlng : radians KAABA_LNG = radians 39.8262 := rfl
  rw [hlng, sub_self]
  have hlat : radians KAABA_LAT = radians 21.4225 := rfl
  rw [hlat, Real.sin_zero, Real.cos_zero]
  have hk2 : radians (21.4225 : ℝ) < Real.pi / 2 := by
    unfold radians
    linarith
  have hlb : -(Real.pi / 2) < radians (21.4225 : ℝ) := by
    unfold radians
    linarith
  have hcos : Real.cos (radians (21.4225 : ℝ)) ≠ 0 :=
    ne_of_gt (Real.cos_pos_of_mem_Ioo ⟨hlb, hk2⟩)
  have hy : Real.cos (radians (21.4225 : ℝ)) * Real.tan (radians (21.4225 : ℝ)) -
      Real.sin (radians (21.4225 : ℝ)) * 1 = 0 := by
    rw [Real.tan_eq_sin_div_cos]
    field_simp
  rw [hy]
  have ha : atan2 0 0 = 0 := by simp [atan2]
  rw [ha]
  have hd : degrees (0 : ℝ) = 0 := by simp [degrees]
  rw [hd]
  simp [round2]

/-- C2: for every input coordinate, `calculate_qibla_direction`
computes exactly the spec's forward-azimuth formula (delta of
longitudes in radians, `x = sin`, `y = cos*tan - sin*cos`,
`degrees(atan2(x, y))`, add 360 when negative, round to 2 decimal
places) with the fixed reference point 21.4225 / 39.8262. -/
theorem qibla_direction_matches_spec_formula :
    (∀ lat lng : ℝ, calculate_qibla_direction lat lng = computeBearing lat lng) ∧
    KAABA_LAT = 21.4225 ∧ KAABA_LNG = 39.8262 :=
  ⟨fun _ _ => rfl, rfl, rfl⟩

/-- C4: on a found record the upsert merges field by field (each
non-null patch field overwrites, each null patch field keeps the stored
value — both directions are packaged in `Option.getD` / `mergeOpt`),
sets `updated_at` to the current time, persists the merged record, and
returns the full updated record. -/
theorem upsert_found_merges_fields (store : List UserSettings) (d : String)
    (p : UserSettingsUpdate) (fid : String) (now : Nat) (s : UserSettings)
    (h : findOne store d = some s) :
    (upsert store d p fid now).2 = mergeSettings s p now ∧
    (upsert store d p fid now).2.id = s.id ∧
    (upsert store d p fid now).2.device_id = s.device_id ∧
    (upsert store d p fid now).2.language = p.language.getD s.language ∧
    (upsert store d p fid now).2.theme = p.theme.getD s.theme ∧
    (upsert store d p fid now).2.notification_enabled =
      p.notification_enabled.getD s.notification_enabled ∧
    (upsert store d p fid now).2.notification_sound =
      p.notification_sound.getD s.notification_sound ∧
    (upsert store d p fid now).2.calculation_method =
      p.calculation_method.getD s.calculation_method ∧
    (upsert store d p fid now).2.latitude = mergeOpt p.latitude s.latitude ∧
    (upsert store d p fid now).2.longitude = mergeOpt p.longitude s.longitude ∧
    (upsert store d p fid now).2.city = mergeOpt p.city s.city ∧
    (upsert store d p fid now).2.country = mergeOpt p.country s.country ∧
    (upsert store d p fid now).2.created_at = s.created_at ∧
    (upsert store d p fid now).2.updated_at = now ∧
    findOne (upsert store d p fid now).1 d = some ((upsert store d p fid now).2) := by
  rw [upsert_snd_of_found h, upsert_fst_of_found h]
  refine ⟨rfl, rfl, rfl, rfl, rfl, rfl, rfl, rfl, rfl, rfl, rfl, rfl, rfl, rfl, ?_⟩
  exact findOne_updateMerge h

/-- Witness for C4 at a concrete store, record and patch. -/
theorem upsert_found_merges_fields_witness :
    findOne demoStore "dev1" = some demoRec ∧
    (upsert demoStore "dev1" demoPatch "i2" 9).2 = mergeSettings demoRec demoPatch 9 :=
  ⟨by decide,
   (upsert_found_merges_fields demoStore "dev1" demoPatch "i2" 9 demoRec (by decide)).1⟩

/-- C5: on an absent `device_id` the upsert appends one new record
whose id is the freshly generated identifier (`uuid.uuid4()`, modelled
by the parameter `fid`), whose `device_id` comes from the input, whose
`created_at`/`updated_at` are the current time, whose non-null patch
fields are applied, and whose remaining fields are the documented
defaults ("tr", "dark", true, "default", 13, location fields unset). -/
theorem upsert_absent_creates_with_defaults (store : List UserSettings) (d : String)
    (p : UserSettingsUpdate) (fid : String) (now : Nat)
    (h : findOne store d = none) :
    (upsert store d p fid now).1 = store ++ [(upsert store d p fid now).2] ∧
    (upsert store d p fid now).2.id = fid ∧
    (upsert store d p fid now).2.device_id = d ∧
    (upsert store d p fid now).2.created_at = now ∧
    (upsert store d p fid now).2.updated_at = now ∧
    (upsert store d p fid now).2.language = p.language.getD "tr" ∧
    (upsert store d p fid now).2.theme = p.theme.getD "dark" ∧
    (upsert store d p fid now).2.notification_enabled = p.notification_enabled.getD true ∧
    (upsert store d p fid now).2.notification_sound = p.notification_sound.getD "default" ∧
    (upsert store d p fid now).2.calculation_method = p.calculation_method.getD 13 ∧
    (upsert store d p fid now).2.latitude = p.latitude ∧
    (upsert store d p fid now).2.longitude = p.longitude ∧
    (upsert store d p fid now).2.city = p.city ∧
    (upsert store d p fid now).2.country = p.country := by
  rw [upsert_snd_of_none h, upsert_fst_of_none h]
  exact ⟨rfl, rfl, rfl, rfl, rfl, rfl, rfl, rfl, rfl, rfl, rfl, rfl, rfl, rfl⟩

/-- Witness for C5 starting from the empty collection. -/
theorem upsert_absent_creates_with_defaults_witness :
    findOne ([] : List UserSettings) "dev9" = none ∧
    (upsert [] "dev9" demoPatch "i7" 4).2.id = "i7" :=
  ⟨rfl, (upsert_absent_creates_with_defaults [] "dev9" demoPatch "i7" 4 rfl).2.1⟩

/-- C6: the upsert keeps at most one record per `device_id` (the count
after an upsert is `max (previous count) 1`, so a first call creates
exactly one and later calls create none), and any upsert on an
existing record leaves `device_id`, `id` and `created_at` unchanged,
refreshes `updated_at`, and leaves every unpatched field unchanged. -/
theorem upsert_unique_per_device_and_frame (store : List UserSettings) (d : String)
    (p : UserSettingsUpdate) (fid : String) (now : Nat) :
    countFor (upsert store d p fid now).1 d = max (countFor store d) 1 ∧
    (∀ s : UserSettings, findOne store d = some s →
      (upsert store d p fid now).2.device_id = s.device_id ∧
      (upsert store d p fid now).2.id = s.id ∧
      (upsert store d p fid now).2.created_at = s.created_at ∧
      (upsert store d p fid now).2.updated_at = now ∧
      (p.language = none → (upsert store d p fid now).2.language = s.language) ∧
      (p.theme = none → (upsert store d p fid now).2.theme = s.theme) ∧
      (p.notification_enabled = none →
        (upsert store d p fid now).2.notification_enabled = s.notification_enabled) ∧
      (p.notification_sound = none →
        (upsert store d p fid now).2.notification_sound = s.notification_sound) ∧
      (p.calculation_method = none →
        (upsert store d p fid now).2.calculation_method = s.calculation_method) ∧
      (p.latitude = none → (upsert store d p fid now).2.latitude = s.latitude) ∧
      (p.longitude = none → (upsert store d p fid now).2.longitude = s.longitude) ∧
      (p.city = none → (upsert store d p fid now).2.city = s.city) ∧
      (p.country = none → (upsert store d p fid now).2.country = s.country)) := by
  constructor
  · cases hfo : findOne store d with
    | none =>
      rw [upsert_fst_of_none hfo, countFor_append_one,
        countFor_eq_zero_of_findOne_none hfo]
      have hm : devMatches d (applyDefaults d fid now p) = true := by
        simp [devMatches, applyDefaults]
      simp [hm]
    | some s =>
      rw [upsert_fst_of_found hfo, countFor_updateFirst]
      exact (Nat.max_eq_left (one_le_countFor_of_findOne_some hfo)).symm
  · intro s hfo
    rw [upsert_snd_of_found hfo]
    refine ⟨rfl, rfl, rfl, rfl, ?_, ?_, ?_, ?_, ?_, ?_, ?_, ?_, ?_⟩ <;>
      intro hnone <;> simp [mergeSettings, mergeOpt, hnone]

/-- Witness for C6 at a concrete store, record and patch. -/
theorem upsert_unique_per_device_and_frame_witness :
    countFor (upsert demoStore "dev1" demoPatch "i2" 9).1 "dev1" =
      max (countFor demoStore "dev1") 1 ∧
    (upsert demoStore "dev1" demoPatch "i2" 9).2.device_id = demoRec.device_id :=
  ⟨(upsert_unique_per_device_and_frame demoStore "dev1" demoPatch "i2" 9).1,
   ((upsert_unique_per_device_and_frame demoStore "dev1" demoPatch "i2" 9).2
     demoRec (by decide)).1⟩

/-- C7: applying the same patch twice through the upsert yields the
same final field values as applying it once — after the second call
every field except `updated_at` equals its value after the first call,
and `updated_at` carries the second call's time. -/
theorem upsert_same_patch_twice_agrees (store : List UserSettings) (d : String)
    (p : UserSettingsUpdate) (fid1 fid2 : String) (now1 now2 : Nat) (s : UserSettings)
    (h : findOne store d = some s) :
    (upsert (upsert store d p fid1 now1).1 d p fid2 now2).2.id =
      (upsert store d p fid1 now1).2.id ∧
    (upsert (upsert store d p fid1 now1).1 d p fid2 now2).2.device_id =
      (upsert store d p fid1 now1).2.device_id ∧
    (upsert (upsert store d p fid1 now1).1 d p fid2 now2).2.language =
      (upsert store d p fid1 now1).2.language ∧
    (upsert (upsert store d p fid1 now1).1 d p fid2 now2).2.theme =
      (upsert store d p fid1 now1).2.theme ∧
    (upsert (upsert store d p fid1 now1).1 d p fid2 now2).2.notification_enabled =
      (upsert store d p fid1 now1).2.notification_enabled ∧
    (upsert (upsert store d p fid1 now1).1 d p fid2 now2).2.notification_sound =
      (upsert store d p fid1 now1).2.notification_sound ∧
    (upsert (upsert store d p fid1 now1).1 d p fid2 now2).2.calculation_method =
      (upsert store d p fid1 now1).2.calculation_method ∧
    (upsert (upsert store d p fid1 now1).1 d p fid2 now2).2.latitude =
      (upsert store d p fid1 now1).2.latitude ∧
    (upsert (upsert store d p fid1 now1).1 d p fid2 now2).2.longitude =
      (upsert store d p fid1 now1).2.longitude ∧
    (upsert (upsert store d p fid1 now1).1 d p fid2 now2).2.city =
      (upsert store d p fid1 now1).2.city ∧
    (upsert (upsert store d p fid1 now1).1 d p fid2 now2).2.country =
      (upsert store d p fid1 now1).2.country ∧
    (upsert (upsert store d p fid1 now1).1 d p fid2 now2).2.created_at =
      (upsert store d p fid1 now1).2.created_at ∧
    (upsert (upsert store d p fid1 now1).1 d p fid2 now2).2.updated_at = now2 := by
  have hf2 : findOne (upsert store d p fid1 now1).1 d = some (mergeSettings s p now1) := by
    rw [upsert_fst_of_found h]
    exact findOne_updateMerge h
  rw [upsert_snd_of_found hf2, upsert_snd_of_found h]
  refine ⟨rfl, rfl, ?_, ?_, ?_, ?_, ?_, ?_, ?_, ?_, ?_, rfl, rfl⟩ <;>
    simp [mergeSettings, getD_getD, mergeOpt_mergeOpt]

/-- Witness for C7 at a concrete store, record and patch. -/
theorem upsert_same_patch_twice_agrees_witness :
    findOne demoStore "dev1" = some demoRec ∧
    (upsert (upsert demoStore "dev1" demoPatch "i2" 9).1 "dev1" demoPatch "i3" 10).2.id =
      (upsert demoStore "dev1" demoPatch "i2" 9).2.id :=
  ⟨by decide,
   (upsert_same_patch_twice_agrees demoStore "dev1" demoPatch "i2" "i3" 9 10 demoRec
     (by decide)).1⟩

/-- C9: `GET /settings/{device_id}` for a `device_id` that no upsert of
the whole history ever targeted returns success with null data, not an
error. -/
theorem get_settings_never_upserted_null
    (ops : List (String × UserSettingsUpdate × String × Nat)) (d : String)
    (h : ∀ op ∈ ops, op.1 ≠ d) :
    get_settings (runUpserts ops) d = (true, none) := by
  have main : ∀ (l : List (String × UserSettingsUpdate × String × Nat))
      (store : List UserSettings), findOne store d = none →
      (∀ op ∈ l, op.1 ≠ d) → findOne (l.foldl upsertStep store) d = none := by
    intro l
    induction l with
    | nil => intro store h1 _; exact h1
    | cons op rest ih =>
      intro store h1 h2
      simp only [List.foldl_cons]
      refine ih _ ?_ ?_
      · exact findOne_upsert_preserve (h2 op (List.mem_cons_self op rest)) h1
      · intro q hq
        exact h2 q (List.mem_cons_of_mem op hq)
  have hnone : findOne (runUpserts ops) d = none := by
    simp only [runUpserts]
    exact main ops [] rfl h
  simp [get_settings, hnone]

/-- Witness for C9 with one upsert for another device. -/
theorem get_settings_never_upserted_null_witness :
    (∀ op ∈ [("dev1", demoPatch, "i1", (1 : Nat))], op.1 ≠ "nobody") ∧
    get_settings (runUpserts [("dev1", demoPatch, "i1", (1 : Nat))]) "nobody" =
      (true, none) :=
  ⟨by decide, get_settings_never_upserted_null _ _ (by decide)⟩

/-- C8 (amended): a request missing a required query parameter gets a
client error before any I/O — but out-of-range latitude/longitude are
not rejected: the handlers declare no bounds (see
`routes_accept_out_of_range`). -/
theorem routes_reject_missing_before_io (latitude longitude : Option ℝ)
    (dateParam : Option String) (monthParam yearParam methodParam : Option Int) :
    (latitude = none ∨ longitude = none →
      get_qibla_route latitude longitude = QiblaResult.validationFailure) ∧
    (latitude = none ∨ longitude = none →
      get_prayer_times_route latitude longitude dateParam methodParam =
        DailyResult.validationFailure) ∧
    (latitude = none ∨ longitude = none ∨ monthParam = none ∨ yearParam = none →
      get_monthly_route latitude longitude monthParam yearParam methodParam =
        MonthlyResult.validationFailure) := by
  refine ⟨?_, ?_, ?_⟩
  · rintro (rfl | rfl)
    · cases longitude <;> rfl
    · cases latitude <;> rfl
  · rintro (rfl | rfl)
    · cases longitude <;> rfl
    · cases latitude <;> rfl
  · rintro (rfl | rfl | rfl | rfl)
    · cases longitude <;> cases monthParam <;> cases yearParam <;> rfl
    · cases latitude <;> cases monthParam <;> cases yearParam <;> rfl
    · cases latitude <;> cases longitude <;> cases yearParam <;> rfl
    · cases latitude <;> cases longitude <;> cases monthParam <;> rfl

/-- Witness for C8 (amended): missing latitude is rejected on all three
routes before any upstream call. -/
theorem routes_reject_missing_before_io_witness :
    get_qibla_route none (some 29) = QiblaResult.validationFailure ∧
    get_prayer_times_route none (some 29) none none = DailyResult.validationFailure ∧
    get_monthly_route none (some 29) (some 1) (some 2024) none =
      MonthlyResult.validationFailure :=
  ⟨(routes_reject_missing_before_io none (some 29) none (some 1) (some 2024) none).1
     (Or.inl rfl),
   (routes_reject_missing_before_io none (some 29) none (some 1) (some 2024) none).2.1
     (Or.inl rfl),
   (routes_reject_missing_before_io none (some 29) none (some 1) (some 2024) none).2.2
     (Or.inl rfl)⟩

/-- C8 counterexample: latitude 1000 lies far outside [-90, 90], yet
`GET /qibla` is not rejected (it answers successfully) and
`GET /prayer-times` issues the upstream request — so out-of-range
coordinates do not produce a client error before I/O. -/
theorem routes_accept_out_of_range :
    (90 : ℝ) < 1000 ∧
    get_qibla_route (some 1000) (some 0) =
      QiblaResult.ok (calculate_qibla_direction 1000 0) 1000 0 ∧
    get_qibla_route (some 1000) (some 0) ≠ QiblaResult.validationFailure ∧
    get_prayer_times_route (some 1000) (some 0) none none =
      DailyResult.upstreamFetch none 1000 0 13 := by
  refine ⟨by norm_num, rfl, ?_, rfl⟩
  intro hcontra
  exact QiblaResult.noConfusion hcontra

/-- C10: the calculation-methods table has 14 entries whose ids are
exactly 0–5 and 7–14: id 6 is absent and the ids are not the contiguous
range 0–13. -/
theorem calculation_methods_skip_id_six :
    calculation_methods.length = 14 ∧
    calculation_methods.map (fun m => m.id) =
      [0, 1, 2, 3, 4, 5, 7, 8, 9, 10, 11, 12, 13, 14] ∧
    (∀ m ∈ calculation_methods, m.id ≠ 6) ∧
    calculation_methods.map (fun m => m.id) ≠ (List.range 14).map (fun n => (n : Int)) :=
  ⟨rfl, rfl, by decide, by decide⟩

end Ezan
